import Mathlib

/-!
Verification development for `CPAC/network_centrality/network_centrality.py`.

The module under study declares a command-line descriptor for the external
`3dDegreeCentrality` binary (`afniDegreeCentralityInputSpec`), an output
resolver (`afniDegreeCentrality._list_outputs`), an eigenvector-centrality
post-processing function (`calc_eigen_from_1d`) and a workflow builder
(`create_network_centrality_wf`).  Each of these is shallowly embedded below:
pure Python code becomes Lean functions; the external collaborators (nipype,
scipy, nibabel, the CPAC utils module) are modelled abstractly as explicit
parameters or small semantic models, each one documented at its definition.
-/

namespace NetworkCentrality

/-! ## Command descriptor (`afniDegreeCentralityInputSpec`) -/

/-- One declared command parameter: its trait name, its command-line format
string (`argstr`), its optional position (`none` for unpositioned flags such
as `-autoclip`), and whether it is mandatory.  This mirrors one trait
declaration of `afniDegreeCentralityInputSpec`. -/
structure ParamDesc where
  name : String
  argstr : String
  position : Option Int
  mandatory : Bool
deriving DecidableEq

/-- Trait `prefix` of `afniDegreeCentralityInputSpec` (line 21). -/
def prefix_desc : ParamDesc := ⟨"prefix", "-prefix %s", some 0, true⟩

/-- Trait `mask` of `afniDegreeCentralityInputSpec` (line 23). -/
def mask_desc : ParamDesc := ⟨"mask", "-mask %s", some 1, false⟩

/-- Trait `thresh` of `afniDegreeCentralityInputSpec` (line 25). -/
def thresh_desc : ParamDesc := ⟨"thresh", "-thresh %f", some 2, false⟩

/-- Trait `sparsity` of `afniDegreeCentralityInputSpec` (line 27). -/
def sparsity_desc : ParamDesc := ⟨"sparsity", "-sparsity %f", some 3, false⟩

/-- Trait `out_1d` of `afniDegreeCentralityInputSpec` (line 29). -/
def out_1d_desc : ParamDesc := ⟨"out_1d", "-out1D %s", some 4, false⟩

/-- Trait `polort` of `afniDegreeCentralityInputSpec` (line 31). -/
def polort_desc : ParamDesc := ⟨"polort", "-polort %d", some 5, false⟩

/-- Trait `autoclip` of `afniDegreeCentralityInputSpec` (line 33): a boolean
flag with no position. -/
def autoclip_desc : ParamDesc := ⟨"autoclip", "-autoclip", none, false⟩

/-- Trait `automask` of `afniDegreeCentralityInputSpec` (line 35): a boolean
flag with no position. -/
def automask_desc : ParamDesc := ⟨"automask", "-automask", none, false⟩

/-- Trait `dataset` of `afniDegreeCentralityInputSpec` (line 37): the input
dataset, bound to the trailing position `-1` with the bare format string
`"%s"` (no flag). -/
def dataset_desc : ParamDesc := ⟨"dataset", "%s", some (-1), false⟩

/-- The full input specification, in source declaration order. -/
def afniDegreeCentralityInputSpec : List ParamDesc :=
  [prefix_desc, mask_desc, thresh_desc, sparsity_desc, out_1d_desc,
   polort_desc, autoclip_desc, automask_desc, dataset_desc]

/-- Substitute a single percent-directive (such as `%s`, `%f`, `%d`) in a
format string by the rendered value, as Python `argstr % value` does for the
one-directive format strings of this spec.  Works on the character list. -/
def substFmt (v : List Char) : List Char → List Char
  | [] => []
  | c :: cs =>
    if c == '%' then
      match cs with
      | [] => [c]
      | _ :: cs2 => v ++ substFmt v cs2
    else c :: substFmt v cs

/-- Render one parameter to its command-line argument, given the string form
of its supplied value (model of nipype's argument formatting of `argstr`). -/
def renderArg (p : ParamDesc) (v : String) : String :=
  String.mk (substFmt v.data p.argstr.data)

/-- Position key used for ordering positioned parameters. -/
def posOf (p : ParamDesc) : Int := Option.getD p.position 0

/-- Insert a parameter into a position-sorted list (stable). -/
def insertByPos (p : ParamDesc) : List ParamDesc → List ParamDesc
  | [] => [p]
  | q :: qs => if posOf p < posOf q then p :: q :: qs else q :: insertByPos p qs

/-- Stable insertion sort by position. -/
def sortByPos (l : List ParamDesc) : List ParamDesc :=
  List.foldr insertByPos [] l

/-- Modelled from the external nipype dependency (`CommandLine._parse_inputs`):
arguments of set parameters are emitted with non-negative positions first in
ascending order, then unpositioned flags in declaration order, then negative
positions in ascending order (so position `-1` comes last).  `vals` is the
supplied parameter set: the rendered value for each set parameter name. -/
def assembleArgs (spec : List ParamDesc) (vals : String → Option String) : List String :=
  let isSet := List.filter (fun p => Option.isSome (vals p.name)) spec
  let first_args := sortByPos (List.filter
    (fun p => match p.position with | some i => decide (0 ≤ i) | none => false) isSet)
  let last_args := sortByPos (List.filter
    (fun p => match p.position with | some i => decide (i < 0) | none => false) isSet)
  let all_args := List.filter (fun p => Option.isNone p.position) isSet
  List.map (fun p => renderArg p (Option.getD (vals p.name) ""))
    (first_args ++ all_args ++ last_args)

/-- Outcome of attempting to run the command line:
either a validation error raised before any external process is started, or
a started process with its final argument list. -/
inductive RunOutcome where
  | validationError (missing : String)
  | ran (args : List String)
deriving DecidableEq

/-- True exactly when an external process was started. -/
def startedProcess : RunOutcome → Bool
  | RunOutcome.ran _ => true
  | RunOutcome.validationError _ => false

/-- Modelled from the external nipype dependency
(`BaseInterface._check_mandatory_inputs` followed by command assembly): if any
mandatory parameter is unset the run raises a validation error immediately,
before any external process is started; otherwise the external command is
started with the assembled arguments. -/
def runCommandLine (spec : List ParamDesc) (vals : String → Option String) : RunOutcome :=
  match List.find? (fun p => p.mandatory && Option.isNone (vals p.name)) spec with
  | some p => RunOutcome.validationError p.name
  | none => RunOutcome.ran (assembleArgs spec vals)

/-! ## Output resolver (`afniDegreeCentrality._list_outputs`) -/

/-- Model of `os.path.isabs` (external stdlib): a POSIX path is absolute when
it starts with a slash. -/
def isabs (p : String) : Bool :=
  match p.data with
  | [] => false
  | c :: _ => c == '/'

/-- True when the path ends in a slash (used by `os.path.join`). -/
def strEndsSlash (p : String) : Bool := p.data.getLast? == some '/'

/-- Model of `os.path.join a b` (external stdlib) for two components: an
absolute second component replaces the first; otherwise the components are
joined with a separating slash unless the first is empty or already ends in
a slash. -/
def joinPath (a b : String) : String :=
  if isabs b then b
  else if a == "" || strEndsSlash a then a ++ b
  else a ++ "/" ++ b

/-- Model of `os.path.abspath` (external stdlib) relative to the current
working directory `cwd`: a relative path is joined onto `cwd`.  (Path
normalization of `.`/`..` components is omitted; the paths resolved by this
module are plain file names.) -/
def abspath (cwd p : String) : String :=
  if isabs p then p else joinPath cwd p

/-- The resolved output set of `afniDegreeCentrality`: an unset slot is
`none`, mirroring an undefined trait in the outputs dictionary. -/
structure DegreeOutputs where
  degree_outfile : Option String
  one_d_outfile : Option String
deriving DecidableEq

/-- Python truthiness of a possibly-undefined string trait: an unset trait
and the empty string are falsy. -/
def truthyStr : Option String → Bool
  | none => false
  | some s => !(s == "")

/-- Embedding of `afniDegreeCentrality._list_outputs` (lines 67-80): start
from an empty outputs dictionary, always set `degree_outfile` to the absolute
path of the `prefix` input, and set `one_d_outfile` to the absolute path of
`out_1d` only when `out_1d` is set (truthy).  `cwd` is the ambient working
directory consulted by `os.path.abspath`. -/
def list_outputs (cwd : String) (prefix_v : String) (out_1d : Option String) : DegreeOutputs :=
  let degree := some (abspath cwd prefix_v)
  if truthyStr out_1d then
    ⟨degree, some (abspath cwd (Option.getD out_1d ""))⟩
  else
    ⟨degree, none⟩

/-! ## Eigenvector centrality calculator (`calc_eigen_from_1d`) -/

/-- Insert an integer into a sorted duplicate-free list, keeping it sorted
and duplicate-free. -/
def insertUnique (x : Int) : List Int → List Int
  | [] => [x]
  | y :: ys =>
    if x < y then x :: y :: ys
    else if x = y then y :: ys
    else y :: insertUnique x ys

/-- Model of `np.unique` (external numpy): the sorted list of distinct values
of the flattened input array. -/
def npUnique (xs : List Int) : List Int :=
  List.foldr insertUnique [] xs

/-- Embedding of the mask classification of `calc_eigen_from_1d`
(lines 102-107): the source evaluates `len(np.unique(mask_img) > 2)` — the
length of the element-wise boolean array `np.unique(mask_img) > 2`, which
equals the number of distinct values — as the Python truthiness condition
choosing `template_type = 1` over `template_type = 0`. -/
def template_type_of (mask_img : List Int) : Nat :=
  if (List.map (fun v => decide (2 < v)) (npUnique mask_img)).length ≠ 0 then 1 else 0

/-- A process environment: an association list from variable names to
values. -/
abbrev Env := List (String × String)

/-- Set a variable in an environment. -/
def setEnv (env : Env) (var val : String) : Env :=
  (var, val) :: List.filter (fun kv => !(kv.1 == var)) env

/-- Look a variable up in an environment. -/
def lookupEnv (env : Env) (var : String) : Option String :=
  Option.map (fun kv => kv.2) (List.find? (fun kv => kv.1 == var) env)

/-- Result of an `os.system` call: the parent process environment afterwards,
the final environment of the transient child shell, and the exit code. -/
structure SysResult where
  parentEnv : Env
  childEnv : Env
  exitCode : Nat
deriving DecidableEq

/-- Model of `os.system("export VAR=val")` (external stdlib): the command is
executed by a child shell, whose `export` mutates only that child shell's own
environment; the child then exits and its environment is discarded.  The
parent process environment is returned unchanged. -/
def osSystem_export (env : Env) (var val : String) : SysResult :=
  ⟨env, setEnv env var val, 0⟩

/-- Observable effects of one `calc_eigen_from_1d` run. -/
inductive Event where
  | sysCall (cmd : String)
  | eigshCall (k : Nat) (which : String) (maxiter : Nat)
  | fileWrite (path : String)
deriving DecidableEq

/-- True for file-write events. -/
def eventIsWrite : Event → Bool
  | Event.fileWrite _ => true
  | _ => false

/-- True for eigensolver-invocation events. -/
def eventIsEigsh : Event → Bool
  | Event.eigshCall _ _ _ => true
  | _ => false

/-- A similarity matrix, as returned by the 1D-file parser. -/
abbrev SimMat := List (List Rat)

/-- An affine transform matrix. -/
abbrev AffineMat := List (List Rat)

/-- The external collaborators of `calc_eigen_from_1d`, abstract:
`maskData` models `nib.load(mask_file).get_data()` (external nibabel);
`parseMats` models `utils.parse_and_return_mats` (module
`CPAC.network_centrality.utils`, not under `src/`), returning the similarity
matrix and affine matrix parsed from the 1D file; `eigshRun` models
`scipy.sparse.linalg.eigsh` (external scipy) applied to a matrix with
arguments `k`, `which`, `maxiter`, returning the eigenpair or an error such
as `ArpackNoConvergence` when the solver fails to converge within `maxiter`
iterations; `mapCentrality` models `utils.map_centrality_matrix` (module
`CPAC.network_centrality.utils`, not under `src/`), which per the spec
scatters a centrality tuple into voxel space and writes one output image
file, returning its path. -/
structure EigExternal where
  maskData : String → List Int
  parseMats : String → SimMat × AffineMat
  eigshRun : SimMat → Nat → String → Nat → Except String (Rat × List Rat)
  mapCentrality : String × List Rat → AffineMat → String → Nat → String

/-- The outcome of one `calc_eigen_from_1d` run: the returned value or the
propagated error, the emitted effects in order, the parent process
environment after the run, and the centrality tuple handed to
`map_centrality_matrix` (when one was produced). -/
structure CalcResult where
  result : Except String String
  events : List Event
  finalEnv : Env
  centrality : Option (String × List Rat)

/-- Embedding of `calc_eigen_from_1d` (lines 84-126): fix `num_eigs = 1`,
`which_eigs = 'LM'`, `max_iter = 1000`; classify the mask image; run
`os.system('export MKL_NUM_THREADS=<n>')`; parse the 1D file; call the
sparse eigensolver; on solver failure the error propagates and nothing is
written; on success take the element-wise absolute value of the eigenvector,
hand the tuple to `map_centrality_matrix` (which writes the output image)
and return the output file path. -/
def calc_eigen_from_1d (ext : EigExternal) (env : Env)
    (one_d_file : String) (num_threads : Nat) (mask_file : String) : CalcResult :=
  let num_eigs : Nat := 1
  let which_eigs : String := "LM"
  let max_iter : Nat := 1000
  let mask_img := ext.maskData mask_file
  let template_type := template_type_of mask_img
  let sys := osSystem_export env "MKL_NUM_THREADS" (toString num_threads)
  let env1 := sys.parentEnv
  let events0 : List Event :=
    [Event.sysCall ("export MKL_NUM_THREADS=" ++ toString num_threads)]
  let mats := ext.parseMats one_d_file
  let sim_matrix := mats.1
  let affine_matrix := mats.2
  let events1 := events0 ++ [Event.eigshCall num_eigs which_eigs max_iter]
  match ext.eigshRun sim_matrix num_eigs which_eigs max_iter with
  | Except.error err => ⟨Except.error err, events1, env1, none⟩
  | Except.ok eigPair =>
    let eig_vect := eigPair.2
    let centrality_tuple := ("eigenvector_centrality", List.map (fun x => |x|) eig_vect)
    let eigen_outfile := ext.mapCentrality centrality_tuple affine_matrix mask_file template_type
    ⟨Except.ok eigen_outfile, events1 ++ [Event.fileWrite eigen_outfile], env1,
      some centrality_tuple⟩

/-! ## Workflow assembly (`create_network_centrality_wf`) -/

/-- One data connection of the workflow graph: source node and field, and
destination node and field. -/
structure Connection where
  srcNode : String
  srcField : String
  dstNode : String
  dstField : String
deriving DecidableEq

/-- One workflow node: its name, the identity-interface fields it exposes
(empty for non-identity nodes), its advisory resource hints, and the inputs
assigned statically at construction time. -/
structure NodeSpec where
  name : String
  fields : List String
  numThreads : Nat
  memory : Nat
  inputsSet : List (String × String)
deriving DecidableEq

/-- A nipype workflow, modelled as its name, nodes and connection list. -/
structure Workflow where
  name : String
  nodes : List NodeSpec
  connections : List Connection
deriving DecidableEq

/-- Embedding of `create_network_centrality_wf` (lines 130-191): build the
workflow named `'afni_centrality'` (the `wf_name` argument is never used by
the source), with the AFNI degree-centrality node and the identity output
node; when `run_eigen` is set, additionally assign
`out_1d = 'similarity_matrix.1D'` on the AFNI node, add the eigen node and
connect it between the AFNI node's `one_d_outfile` and the output node's
`eigen_output`; in every case connect `degree_outfile` and `one_d_outfile`
of the AFNI node to `degree_output` and `one_d_output` of the output node.
Source defaults: `wf_name='network_centrality'`, `num_threads=1`,
`memory=1`, `run_eigen=False`. -/
def create_network_centrality_wf (wf_name : String) (num_threads : Nat)
    (memory : Nat) (run_eigen : Bool) : Workflow :=
  let afni_centrality_node : NodeSpec :=
    ⟨"afni_degree_centrality", [], num_threads, memory,
     [("environ.OMP_NUM_THREADS", toString num_threads)]⟩
  let output_node : NodeSpec :=
    ⟨"output_node", ["degree_output", "eigen_output", "one_d_output"], 1, 1, []⟩
  let tailConns : List Connection :=
    [⟨"afni_degree_centrality", "degree_outfile", "output_node", "degree_output"⟩,
     ⟨"afni_degree_centrality", "one_d_outfile", "output_node", "one_d_output"⟩]
  if run_eigen then
    let afni2 : NodeSpec :=
      { afni_centrality_node with
          inputsSet := afni_centrality_node.inputsSet ++ [("out_1d", "similarity_matrix.1D")] }
    let run_eigen_node : NodeSpec :=
      ⟨"run_eigen_node", [], num_threads, memory, [("num_threads", toString num_threads)]⟩
    ⟨"afni_centrality", [afni2, output_node, run_eigen_node],
     [⟨"afni_degree_centrality", "one_d_outfile", "run_eigen_node", "one_d_file"⟩,
      ⟨"run_eigen_node", "eigen_outfile", "output_node", "eigen_output"⟩] ++ tailConns⟩
  else
    ⟨"afni_centrality", [afni_centrality_node, output_node], tailConns⟩

/-! ## Helper lemmas -/

/-- String concatenation is associative. -/
theorem strAppend_assoc (a b c : String) : a ++ b ++ c = a ++ (b ++ c) := by
  apply String.ext
  simp

/-! ## Claims -/

/-- C1: the claim says a mask image with exactly two distinct non-background
label values is classified as a binary mask (`template_type = 0`) and more
than two distinct values as an atlas (`template_type = 1`).  The code
evaluates `len(np.unique(mask_img) > 2)` — the number of distinct values —
as a truthiness test, which is nonzero for every non-empty image, so the
code classifies every non-empty mask as an atlas: the two-valued mask
`[1, 2]` (and even the binary mask `[0, 1]`) gets `template_type = 1`,
refuting the claim; only an empty image would get `template_type = 0`. -/
theorem c1_mask_classification_always_atlas :
    template_type_of [1, 2] = 1 ∧ template_type_of [0, 1] = 1 ∧
    template_type_of [0, 1, 2, 3] = 1 ∧ template_type_of [] = 0 := by
  decide

/-- C2: whenever the sparse eigensolver fails to converge (returns an error)
on the similarity matrix parsed from the 1D file, `calc_eigen_from_1d`
propagates that error as its result and its event trace contains no
file-write event: no (partial) eigenvector output file is written. -/
theorem c2_solver_failure_propagates (ext : EigExternal) (env : Env)
    (one_d_file mask_file : String) (num_threads : Nat) (err : String)
    (h : ext.eigshRun (ext.parseMats one_d_file).1 1 "LM" 1000 = Except.error err) :
    (calc_eigen_from_1d ext env one_d_file num_threads mask_file).result
        = Except.error err ∧
    List.all (calc_eigen_from_1d ext env one_d_file num_threads mask_file).events
        (fun e => !(eventIsWrite e)) = true := by
  unfold calc_eigen_from_1d
  simp [h, eventIsWrite]

/-- External collaborators on which the eigensolver reports non-convergence. -/
def noConvExt : EigExternal :=
  ⟨fun _ => [0, 1], fun _ => ([[1]], [[1]]),
   fun _ _ _ _ => Except.error "ArpackNoConvergence",
   fun _ _ _ _ => "eigenvector_centrality.nii.gz"⟩

/-- Witness for C2 at a concrete non-converging run. -/
theorem c2_solver_failure_propagates_witness :
    noConvExt.eigshRun (noConvExt.parseMats "sim.1D").1 1 "LM" 1000
        = Except.error "ArpackNoConvergence" ∧
    ((calc_eigen_from_1d noConvExt [] "sim.1D" 4 "mask.nii").result
        = Except.error "ArpackNoConvergence" ∧
      List.all (calc_eigen_from_1d noConvExt [] "sim.1D" 4 "mask.nii").events
        (fun e => !(eventIsWrite e)) = true) :=
  ⟨rfl, c2_solver_failure_propagates noConvExt [] "sim.1D" "mask.nii" 4
    "ArpackNoConvergence" rfl⟩

/-- C3: with `run_eigen = False`, the built workflow has no connection into
the output node's `eigen_output` slot, while both primary-stage outputs —
the degree-centrality image (`degree_outfile`) and the similarity-matrix
file (`one_d_outfile`) — are connected to the output node. -/
theorem c3_run_eigen_disabled_wiring (wf_name_v : String) (num_threads memory : Nat) :
    List.all (create_network_centrality_wf wf_name_v num_threads memory false).connections
        (fun c => !(c.dstField == "eigen_output")) = true ∧
    Connection.mk "afni_degree_centrality" "degree_outfile" "output_node" "degree_output"
        ∈ (create_network_centrality_wf wf_name_v num_threads memory false).connections ∧
    Connection.mk "afni_degree_centrality" "one_d_outfile" "output_node" "one_d_output"
        ∈ (create_network_centrality_wf wf_name_v num_threads memory false).connections := by
  refine ⟨?_, ?_, ?_⟩ <;> simp [create_network_centrality_wf]

/-- C6: whenever the eigensolver converges and returns an eigenvector
`vect`, the centrality tuple produced by `calc_eigen_from_1d` carries the
element-wise absolute value of `vect`, and every one of those per-node
values is non-negative — even when `vect` has mixed signs. -/
theorem c6_centrality_values_nonneg (ext : EigExternal) (env : Env)
    (one_d_file mask_file : String) (num_threads : Nat) (val : Rat) (vect : List Rat)
    (h : ext.eigshRun (ext.parseMats one_d_file).1 1 "LM" 1000 = Except.ok (val, vect)) :
    (calc_eigen_from_1d ext env one_d_file num_threads mask_file).centrality
        = some ("eigenvector_centrality", List.map (fun x => |x|) vect) ∧
    List.all (List.map (fun x => |x|) vect) (fun x => decide (0 ≤ x)) = true := by
  constructor
  · unfold calc_eigen_from_1d
    simp [h]
  · rw [List.all_eq_true]
    intro x hx
    rcases List.mem_map.mp hx with ⟨y, _, rfl⟩
    simp [abs_nonneg]

/-- External collaborators on which the eigensolver converges to a
mixed-sign eigenvector. -/
def mixedSignExt : EigExternal :=
  ⟨fun _ => [0, 1], fun _ => ([[1]], [[1]]),
   fun _ _ _ _ => Except.ok (2, [1, -2, 3]),
   fun _ _ _ _ => "eigenvector_centrality.nii.gz"⟩

/-- Witness for C6 at a concrete converging run with a mixed-sign
eigenvector. -/
theorem c6_centrality_values_nonneg_witness :
    mixedSignExt.eigshRun (mixedSignExt.parseMats "sim.1D").1 1 "LM" 1000
        = Except.ok (2, [1, -2, 3]) ∧
    ((calc_eigen_from_1d mixedSignExt [] "sim.1D" 4 "mask.nii").centrality
        = some ("eigenvector_centrality", List.map (fun x => |x|) [1, -2, 3]) ∧
      List.all (List.map (fun x => |x|) ([1, -2, 3] : List Rat))
        (fun x => decide (0 ≤ x)) = true) :=
  ⟨rfl, c6_centrality_values_nonneg mixedSignExt [] "sim.1D" "mask.nii" 4
    2 [1, -2, 3] rfl⟩

/-- C7: every run of `calc_eigen_from_1d` invokes the sparse eigensolver
exactly once, requesting exactly one eigenpair (`k = 1`), selected by
largest magnitude (`which = 'LM'`), with the iteration count bounded at
1000 (`maxiter = 1000`). -/
theorem c7_eigsh_request (ext : EigExternal) (env : Env)
    (one_d_file mask_file : String) (num_threads : Nat) :
    List.filter eventIsEigsh
        (calc_eigen_from_1d ext env one_d_file num_threads mask_file).events
      = [Event.eigshCall 1 "LM" 1000] := by
  unfold calc_eigen_from_1d
  cases hx : ext.eigshRun (ext.parseMats one_d_file).1 1 "LM" 1000 <;>
    simp [hx, eventIsEigsh]

/-- C9: the claim says the `MKL_NUM_THREADS` hint is applied process-wide
for the duration of the eigenvector computation.  The code runs
`os.system('export MKL_NUM_THREADS=<n>')`, whose `export` mutates only the
transient child shell's environment (`childEnv`); the parent process
environment after the whole run is unchanged, so `MKL_NUM_THREADS` is never
set in the process that runs the eigensolver. -/
theorem c9_mkl_hint_never_reaches_process (ext : EigExternal) (env : Env)
    (one_d_file mask_file : String) (num_threads : Nat) :
    (calc_eigen_from_1d ext env one_d_file num_threads mask_file).finalEnv = env ∧
    lookupEnv (calc_eigen_from_1d ext env one_d_file num_threads mask_file).finalEnv
        "MKL_NUM_THREADS" = lookupEnv env "MKL_NUM_THREADS" ∧
    (osSystem_export env "MKL_NUM_THREADS" (toString num_threads)).childEnv
        = setEnv env "MKL_NUM_THREADS" (toString num_threads) := by
  have hfin : (calc_eigen_from_1d ext env one_d_file num_threads mask_file).finalEnv
      = env := by
    unfold calc_eigen_from_1d
    cases hx : ext.eigshRun (ext.parseMats one_d_file).1 1 "LM" 1000 <;>
      simp [hx, osSystem_export]
  exact ⟨hfin, by rw [hfin], rfl⟩

/-- C10: for every combination of arguments, the workflow returned by
`create_network_centrality_wf` is named `'afni_centrality'`, and the
`wf_name` argument has no effect on the constructed workflow. -/
theorem c10_wf_name_ignored (w1 w2 : String) (n m : Nat) (r : Bool) :
    (create_network_centrality_wf w1 n m r).name = "afni_centrality" ∧
    create_network_centrality_wf w1 n m r = create_network_centrality_wf w2 n m r := by
  cases r <;> exact ⟨rfl, rfl⟩

/-- C4: for every working directory below the root and every prefix value,
output resolution with `out_1d` unset leaves `one_d_outfile` absent; with
`out_1d = "similarity_matrix.1D"` it resolves `one_d_outfile` to an absolute
path (one below the root) ending in that filename; and in both cases
`degree_outfile` is the absolute path of the prefix parameter. -/
theorem c4_list_outputs_resolution (cwd t prefix_v : String) (h : cwd = "/" ++ t) :
    (list_outputs cwd prefix_v none).one_d_outfile = none ∧
    (list_outputs cwd prefix_v none).degree_outfile = some (abspath cwd prefix_v) ∧
    (list_outputs cwd prefix_v (some "similarity_matrix.1D")).degree_outfile
        = some (abspath cwd prefix_v) ∧
    ∃ pre rest,
      (list_outputs cwd prefix_v (some "similarity_matrix.1D")).one_d_outfile
          = some (pre ++ "similarity_matrix.1D") ∧
      pre ++ "similarity_matrix.1D" = "/" ++ rest := by
  refine ⟨rfl, rfl, rfl, ?_⟩
  have hone : (list_outputs cwd prefix_v (some "similarity_matrix.1D")).one_d_outfile
      = some (joinPath cwd "similarity_matrix.1D") := rfl
  have h1 : isabs "similarity_matrix.1D" = false := rfl
  by_cases hc : ((cwd == "") || strEndsSlash cwd) = true
  · have hj : joinPath cwd "similarity_matrix.1D" = cwd ++ "similarity_matrix.1D" := by
      simp [joinPath, h1, hc]
    refine ⟨cwd, t ++ "similarity_matrix.1D", ?_, ?_⟩
    · rw [hone, hj]
    · rw [h]
      exact strAppend_assoc "/" t "similarity_matrix.1D"
  · have hj : joinPath cwd "similarity_matrix.1D"
        = cwd ++ "/" ++ "similarity_matrix.1D" := by
      simp [joinPath, h1, hc]
    refine ⟨cwd ++ "/", (t ++ "/") ++ "similarity_matrix.1D", ?_, ?_⟩
    · rw [hone, hj]
    · rw [h, strAppend_assoc "/" t "/"]
      exact strAppend_assoc "/" (t ++ "/") "similarity_matrix.1D"

/-- Witness for C4 at the concrete working directory `/tmp`. -/
theorem c4_list_outputs_resolution_witness :
    ("/tmp" = "/" ++ "tmp") ∧
    ((list_outputs "/tmp" "degree_centrality.nii.gz" none).one_d_outfile = none ∧
      (list_outputs "/tmp" "degree_centrality.nii.gz" none).degree_outfile
          = some (abspath "/tmp" "degree_centrality.nii.gz") ∧
      (list_outputs "/tmp" "degree_centrality.nii.gz"
            (some "similarity_matrix.1D")).degree_outfile
          = some (abspath "/tmp" "degree_centrality.nii.gz") ∧
      ∃ pre rest,
        (list_outputs "/tmp" "degree_centrality.nii.gz"
              (some "similarity_matrix.1D")).one_d_outfile
            = some (pre ++ "similarity_matrix.1D") ∧
        pre ++ "similarity_matrix.1D" = "/" ++ rest) :=
  ⟨by decide, c4_list_outputs_resolution "/tmp" "tmp" "degree_centrality.nii.gz" (by decide)⟩

/-- C5: for every fully specified parameter set, the assembled argument
sequence is exactly the rendered arguments of `prefix`, `mask`, `thresh`,
`sparsity`, `out_1d`, `polort` (positions 0 through 5, in ascending
position order), then the unpositioned flags, then the dataset argument
last — independent of any supply order, since the assembly reads the
parameter set as a mapping; moreover the dataset is the only parameter
bound to a negative (trailing) position and its format string `"%s"`
carries no flag. -/
theorem c5_argument_ordering (vals : String → Option String)
    (v0 v1 v2 v3 v4 v5 v6 v7 v8 : String)
    (h0 : vals "prefix" = some v0) (h1 : vals "mask" = some v1)
    (h2 : vals "thresh" = some v2) (h3 : vals "sparsity" = some v3)
    (h4 : vals "out_1d" = some v4) (h5 : vals "polort" = some v5)
    (h6 : vals "autoclip" = some v6) (h7 : vals "automask" = some v7)
    (h8 : vals "dataset" = some v8) :
    assembleArgs afniDegreeCentralityInputSpec vals
      = [renderArg prefix_desc v0, renderArg mask_desc v1, renderArg thresh_desc v2,
         renderArg sparsity_desc v3, renderArg out_1d_desc v4, renderArg polort_desc v5,
         renderArg autoclip_desc v6, renderArg automask_desc v7,
         renderArg dataset_desc v8] ∧
    List.filter (fun p => match p.position with | some i => decide (i < 0) | none => false)
        afniDegreeCentralityInputSpec = [dataset_desc] ∧
    dataset_desc.argstr = "%s" ∧ dataset_desc.position = some (-1) := by
  refine ⟨?_, by decide, rfl, rfl⟩
  simp [assembleArgs, afniDegreeCentralityInputSpec, prefix_desc, mask_desc,
    thresh_desc, sparsity_desc, out_1d_desc, polort_desc, autoclip_desc,
    automask_desc, dataset_desc, sortByPos, insertByPos, posOf,
    h0, h1, h2, h3, h4, h5, h6, h7, h8]

/-- Witness for C5 at a concrete fully specified parameter set. -/
theorem c5_argument_ordering_witness :
    ((fun _ => some "v" : String → Option String) "prefix" = some "v") ∧
    ((fun _ => some "v" : String → Option String) "dataset" = some "v") ∧
    (assembleArgs afniDegreeCentralityInputSpec (fun _ => some "v")
        = [renderArg prefix_desc "v", renderArg mask_desc "v", renderArg thresh_desc "v",
           renderArg sparsity_desc "v", renderArg out_1d_desc "v", renderArg polort_desc "v",
           renderArg autoclip_desc "v", renderArg automask_desc "v",
           renderArg dataset_desc "v"] ∧
      List.filter (fun p => match p.position with | some i => decide (i < 0) | none => false)
          afniDegreeCentralityInputSpec = [dataset_desc] ∧
      dataset_desc.argstr = "%s" ∧ dataset_desc.position = some (-1)) :=
  ⟨rfl, rfl, c5_argument_ordering (fun _ => some "v") "v" "v" "v" "v" "v" "v" "v" "v" "v"
    rfl rfl rfl rfl rfl rfl rfl rfl rfl⟩

/-- C8: for every parameter set in which the mandatory `prefix` parameter is
unset, running the command descriptor yields a validation error naming
`prefix`, and no external process is started. -/
theorem c8_missing_prefix_rejected (vals : String → Option String)
    (h : vals "prefix" = none) :
    runCommandLine afniDegreeCentralityInputSpec vals
        = RunOutcome.validationError "prefix" ∧
    startedProcess (runCommandLine afniDegreeCentralityInputSpec vals) = false := by
  have hrun : runCommandLine afniDegreeCentralityInputSpec vals
      = RunOutcome.validationError "prefix" := by
    simp [runCommandLine, afniDegreeCentralityInputSpec, prefix_desc, h]
  exact ⟨hrun, by rw [hrun]; rfl⟩

/-- Witness for C8 at the empty parameter set. -/
theorem c8_missing_prefix_rejected_witness :
    ((fun _ => (none : Option String)) "prefix" = none) ∧
    (runCommandLine afniDegreeCentralityInputSpec (fun _ => none)
        = RunOutcome.validationError "prefix" ∧
      startedProcess (runCommandLine afniDegreeCentralityInputSpec (fun _ => none))
          = false) :=
  ⟨rfl, c8_missing_prefix_rejected (fun _ => none) rfl⟩

end NetworkCentrality
